import Mathlib

/-!
Shallow embedding of the FastAPI e-commerce backend
(`app/routers/products.py`, `app/routers/reviews.py`, `app/models/reviews.py`).

The relational store is a `DB` record of lists of rows.  SQLAlchemy
statements become list operations:
  `select(M).where(cond)` + `.first()`  ↦  `(list.filter cond).head?`
  `select(M).where(cond)` + `.all()`    ↦  `list.filter cond`
  `update(M).where(cond).values(...)`   ↦  `list.map (fun row => if cond then row' else row)`
  `select(func.avg(col)).where(cond)`   ↦  `Option Rat` (NULL when no row matches)
HTTP endpoints become functions `... → DB → Except ApiError (DB × result)`;
raising `HTTPException` is `.error e`, which produces no successor state
(the store is unchanged).  Authentication dependencies (`get_current_seller`
etc.) resolve the caller outside the handler bodies; the handlers only use
`current_user.id`, passed here as `current_user_id`.
-/

/-- HTTP error classes raised by the routers. -/
inductive ApiError where
  | notFound
  | badRequest
  | forbidden
deriving DecidableEq, Repr

/-- The HTTP status code each error class is raised with. -/
def ApiError.statusCode : ApiError → Nat
  | .notFound => 404
  | .badRequest => 400
  | .forbidden => 403

/-- Row of the `reviews` table (`app/models/reviews.py`): id, user_id,
product_id, comment, comment_date, grade, is_active.  The timestamp is an
abstract tick (`Nat`). -/
structure Review where
  id : Nat
  user_id : Nat
  product_id : Nat
  comment : String
  comment_date : Nat
  grade : Int
  is_active : Bool
deriving DecidableEq, Repr

/-- Modelled from the spec: the `products` table is not under `src/`; its
fields are taken from the spec data model (identity, owning seller
reference, category reference, active flag, derived rating, descriptive
fields name and price) and from the columns the routers under `src/` read
and write (`id`, `seller_id`, `category_id`, `is_active`, `rating`). -/
structure Product where
  id : Nat
  seller_id : Nat
  category_id : Nat
  name : String
  price : Rat
  rating : Rat
  is_active : Bool
deriving DecidableEq, Repr

/-- Modelled from the spec: the `categories` table is not under `src/`;
the routers read only its identity and active flag. -/
structure Category where
  id : Nat
  is_active : Bool
deriving DecidableEq, Repr

/-- The relational store: the three tables the routers under `src/` touch. -/
structure DB where
  products : List Product
  reviews : List Review
  categories : List Category
deriving DecidableEq, Repr

/-- Modelled from the spec: the `ReviewCreate` request schema is not under
`src/`; `create_review` reads its `product_id`, `comment` and `grade`
(`user_id` comes from the caller, `comment_date` defaults to now). -/
structure ReviewCreate where
  product_id : Nat
  comment : String
  grade : Int
deriving DecidableEq, Repr

/-- Modelled from the spec: the `ProductCreate` request schema is not under
`src/`; per the spec it carries the descriptive fields (name, price) and the
category reference, which `update_product` overwrites wholesale. -/
structure ProductCreate where
  name : String
  price : Rat
  category_id : Nat
deriving DecidableEq, Repr

/-- `SELECT avg(reviews.grade) WHERE reviews.product_id = product_id AND
reviews.is_active` — SQL `AVG` over the matching rows, `NULL` (here `none`)
when no row matches (`app/routers/products.py` lines 186-188). -/
def sqlAvgGrade (reviews : List Review) (product_id : Nat) : Option Rat :=
  match reviews.filter (fun r => r.product_id == product_id && r.is_active) with
  | [] => none
  | rs => some (((rs.map (fun r => (r.grade : Rat))).sum) / (rs.length : Rat))

/-- `update_product_rating` (`app/routers/products.py` lines 185-199):
reads the average grade of the product's active reviews, substitutes `0.0`
when it is `NULL`, and writes it into the product's `rating` column. -/
def update_product_rating (product_id : Nat) (db : DB) : DB :=
  let updated_rating : Rat := (sqlAvgGrade db.reviews product_id).getD 0
  { db with
    products := db.products.map (fun p =>
      if p.id == product_id then { p with rating := updated_rating } else p) }

/-- Modelled from the spec (the refinement target for C1): "the arithmetic
mean of `grade` across all Reviews referencing that product where
active=true. If the set is empty, the result is defined as 0.0". -/
def specMean (reviews : List Review) (product_id : Nat) : Rat :=
  let s := reviews.filter (fun r => r.product_id == product_id && r.is_active)
  if s.isEmpty then 0
  else ((s.map (fun r => (r.grade : Rat))).sum) / (s.length : Rat)

/-- `get_review` (`app/routers/reviews.py` lines 31-45).  The source binds
`review = stmt.all()`: SQLAlchemy `.all()` always returns a list (possibly
empty), never `None`, which the embedding records by wrapping the filtered
list in `some`.  The subsequent `if review is None` check and its 404 are
therefore unreachable. -/
def get_review (review_id : Nat) (db : DB) : Except ApiError (List Review) :=
  let review : Option (List Review) :=
    some (db.reviews.filter (fun r => r.id == review_id && r.is_active))
  match review with
  | none => .error .notFound
  | some rs => .ok rs

/-- `create_review` (`app/routers/reviews.py` lines 48-80): fetch the
referenced active product (404 if absent), reject grades outside `[1,5]`
(400), insert the review row (active, owned by the caller), then run
`update_product_rating` on the fetched product's id before returning. -/
def create_review (review : ReviewCreate) (current_user_id new_id now : Nat)
    (db : DB) : Except ApiError (DB × Review) :=
  match (db.products.filter
      (fun p => p.id == review.product_id && p.is_active)).head? with
  | none => .error .notFound
  | some product =>
    if ¬ (1 ≤ review.grade ∧ review.grade ≤ 5) then
      .error .badRequest
    else
      let db_review : Review :=
        { id := new_id, user_id := current_user_id,
          product_id := review.product_id, comment := review.comment,
          comment_date := now, grade := review.grade, is_active := true }
      let db1 : DB := { db with reviews := db.reviews ++ [db_review] }
      let db2 : DB := update_product_rating product.id db1
      .ok (db2, db_review)

/-- `delete_review` (`app/routers/reviews.py` lines 83-107): fetch the
active review (404 if absent), set its `is_active` to false, then run
`update_product_rating` on the review's `product_id` before returning the
confirmation message. -/
def delete_review (review_id : Nat) (db : DB) :
    Except ApiError (DB × String) :=
  match (db.reviews.filter
      (fun r => r.id == review_id && r.is_active)).head? with
  | none => .error .notFound
  | some review =>
    let db1 : DB := { db with
      reviews := db.reviews.map (fun r =>
        if r.id == review_id then { r with is_active := false } else r) }
    let db2 : DB := update_product_rating review.product_id db1
    .ok (db2, "Review deleted!")

/-- `update_product` (`app/routers/products.py` lines 105-147): fetch the
active product (404), check ownership (403), check the category exists and
is active (400), then overwrite the `ProductCreate` fields. -/
def update_product (product_id : Nat) (product : ProductCreate)
    (current_user_id : Nat) (db : DB) : Except ApiError (DB × Product) :=
  match (db.products.filter
      (fun p => p.id == product_id && p.is_active)).head? with
  | none => .error .notFound
  | some db_product =>
    if db_product.seller_id ≠ current_user_id then
      .error .forbidden
    else
      match (db.categories.filter
          (fun c => c.id == product.category_id && c.is_active)).head? with
      | none => .error .badRequest
      | some _ =>
        let db1 : DB := { db with
          products := db.products.map (fun p =>
            if p.id == product_id then
              { p with name := product.name, price := product.price,
                       category_id := product.category_id }
            else p) }
        let refreshed : Product :=
          { db_product with name := product.name, price := product.price,
                            category_id := product.category_id }
        .ok (db1, refreshed)

/-- `delete_product` (`app/routers/products.py` lines 150-182): fetch the
active product (404), check ownership (403), then set `is_active` to false
for the row with that id and return the refreshed record. -/
def delete_product (product_id current_user_id : Nat) (db : DB) :
    Except ApiError (DB × Product) :=
  match (db.products.filter
      (fun p => p.id == product_id && p.is_active)).head? with
  | none => .error .notFound
  | some product =>
    if product.seller_id ≠ current_user_id then
      .error .forbidden
    else
      let db1 : DB := { db with
        products := db.products.map (fun p =>
          if p.id == product_id then { p with is_active := false } else p) }
      .ok (db1, { product with is_active := false })

/-! ## Helper lemmas -/

lemma update_product_rating_reviews (pid : Nat) (db : DB) :
    (update_product_rating pid db).reviews = db.reviews := rfl

lemma update_product_rating_categories (pid : Nat) (db : DB) :
    (update_product_rating pid db).categories = db.categories := rfl

lemma sqlAvgGrade_getD_eq_specMean (reviews : List Review) (pid : Nat) :
    (sqlAvgGrade reviews pid).getD 0 = specMean reviews pid := by
  unfold sqlAvgGrade specMean
  cases h : reviews.filter (fun r => r.product_id == pid && r.is_active) with
  | nil => simp [h]
  | cons a l => simp [h]

lemma update_product_rating_products (pid : Nat) (db : DB) :
    (update_product_rating pid db).products
      = db.products.map (fun p =>
          if p.id == pid then { p with rating := specMean db.reviews pid }
          else p) := by
  simp only [update_product_rating, sqlAvgGrade_getD_eq_specMean]

lemma mem_update_product_rating_products {pid : Nat} {db : DB} {p : Product}
    (hp : p ∈ (update_product_rating pid db).products) :
    ∃ q ∈ db.products,
      p = (if q.id == pid then { q with rating := specMean db.reviews pid }
           else q) := by
  rw [update_product_rating_products] at hp
  obtain ⟨q, hq, hpq⟩ := List.mem_map.mp hp
  exact ⟨q, hq, hpq.symm⟩

lemma rating_after_update_product_rating {pid : Nat} {db : DB} {p : Product}
    (hp : p ∈ (update_product_rating pid db).products) (hid : p.id = pid) :
    p.rating = specMean db.reviews pid ∧
    ∃ q ∈ db.products, q.id = p.id ∧ p.is_active = q.is_active := by
  obtain ⟨q, hq, hpq⟩ := mem_update_product_rating_products hp
  by_cases hb : (q.id == pid) = true
  · rw [if_pos hb] at hpq
    subst hpq
    constructor
    · rfl
    · exact ⟨q, hq, rfl, rfl⟩
  · rw [if_neg hb] at hpq
    subst hpq
    exact absurd (beq_iff_eq.mpr hid) hb

lemma head_filter_pred {α : Type} {l : List α} {p : α → Bool} {a : α}
    (h : (l.filter p).head? = some a) : a ∈ l ∧ p a = true := by
  have hmem : a ∈ l.filter p := List.mem_of_mem_head? (Option.mem_def.mpr h)
  exact List.mem_filter.mp hmem

/-! ## Claims -/

/-- C1: for every product id, `update_product_rating` writes into every
product row carrying that id the arithmetic mean of `grade` over the active
reviews referencing it (`specMean`), which is exactly `0` when no such
review exists; all other rows are unchanged. -/
theorem C1_rating_recompute_writes_mean (pid : Nat) (db : DB) :
    (update_product_rating pid db).products
      = db.products.map (fun p =>
          if p.id == pid then { p with rating := specMean db.reviews pid }
          else p) ∧
    ((db.reviews.filter (fun r => r.product_id == pid && r.is_active)) = []
      → specMean db.reviews pid = 0) := by
  refine ⟨update_product_rating_products pid db, fun h => ?_⟩
  unfold specMean
  simp [h]

/-- C3: `update_product_rating` is idempotent — running it a second time
with no intervening change to the review set leaves the store exactly as
after the first run. -/
theorem C3_rating_recompute_idempotent (pid : Nat) (db : DB) :
    update_product_rating pid (update_product_rating pid db)
      = update_product_rating pid db := by
  cases db with
  | mk products reviews categories =>
    simp only [update_product_rating, DB.mk.injEq]
    refine ⟨?_, trivial, trivial⟩
    rw [List.map_map]
    apply List.map_congr_left
    intro p _
    simp only [Function.comp]
    by_cases hb : p.id = pid
    · simp [hb]
    · simp [hb]

/-- C2: after every successful `create_review` and every successful
`delete_review`, the new store is exactly the result of running
`update_product_rating` on the referenced product (the recomputation is a
synchronous step of the operation), and in it every product row carrying
the referenced id has `rating` equal to the arithmetic mean of the grades
of its active reviews (`specMean`, which is `0` when none exist). -/
theorem C2_rating_invariant_after_create_and_delete :
    (∀ (rc : ReviewCreate) (uid nid now : Nat) (db db' : DB) (rv : Review),
        create_review rc uid nid now db = .ok (db', rv) →
        db' = update_product_rating rc.product_id
                { db with reviews := db.reviews ++ [rv] } ∧
        ∀ p ∈ db'.products, p.id = rc.product_id →
          p.rating = specMean db'.reviews rc.product_id) ∧
    (∀ (rid : Nat) (db db' : DB) (msg : String),
        delete_review rid db = .ok (db', msg) →
        ∃ rv, (db.reviews.filter
                (fun r => r.id == rid && r.is_active)).head? = some rv ∧
          db' = update_product_rating rv.product_id
                  { db with reviews := db.reviews.map (fun r =>
                      if r.id == rid then { r with is_active := false }
                      else r) } ∧
          ∀ p ∈ db'.products, p.id = rv.product_id →
            p.rating = specMean db'.reviews rv.product_id) := by
  constructor
  · intro rc uid nid now db db' rv h
    unfold create_review at h
    split at h
    · exact absurd h (by simp)
    · rename_i product hf
      split at h
      · exact absurd h (by simp)
      · simp only [Except.ok.injEq, Prod.mk.injEq] at h
        obtain ⟨hdb, hrv⟩ := h
        have hpid : product.id = rc.product_id := by
          have hpred := (head_filter_pred hf).2
          rw [Bool.and_eq_true] at hpred
          exact beq_iff_eq.mp hpred.1
        subst hrv
        rw [hpid] at hdb
        subst hdb
        refine ⟨rfl, fun p hp hip => ?_⟩
        exact (rating_after_update_product_rating hp hip).1
  · intro rid db db' msg h
    unfold delete_review at h
    split at h
    · exact absurd h (by simp)
    · rename_i review hf
      simp only [Except.ok.injEq, Prod.mk.injEq] at h
      obtain ⟨hdb, -⟩ := h
      subst hdb
      refine ⟨review, hf, rfl, fun p hp hip => ?_⟩
      exact (rating_after_update_product_rating hp hip).1

lemma create_review_no_active_product
    (rc : ReviewCreate) (uid nid now : Nat) (db : DB)
    (hp : ∀ p ∈ db.products, p.id = rc.product_id → p.is_active = false) :
    create_review rc uid nid now db = .error .notFound := by
  have hf : db.products.filter
      (fun p => p.id == rc.product_id && p.is_active) = [] := by
    rw [List.filter_eq_nil_iff]
    intro p hpmem hpred
    rw [Bool.and_eq_true] at hpred
    have hid : p.id = rc.product_id := beq_iff_eq.mp hpred.1
    rw [hp p hpmem hid] at hpred
    exact absurd hpred.2 (by simp)
  unfold create_review
  rw [hf]
  rfl

/-- C4: contrary to the claim, `get_review` never fails with NotFound: the
source compares the list returned by `.all()` against `None`, a check that
is always false, so a review id matching no active review yields `200` with
the empty list.  Concretely, on the empty store `get_review 1` returns
`.ok []`, and for every id and store the result is `.ok` of the filtered
list. -/
theorem C4_get_review_never_fails_notFound :
    get_review 1 { products := [], reviews := [], categories := [] }
        = .ok [] ∧
    ∀ (rid : Nat) (db : DB),
      get_review rid db
        = .ok (db.reviews.filter (fun r => r.id == rid && r.is_active)) :=
  ⟨rfl, fun _ _ => rfl⟩

/-- C5: a creation request whose referenced product is present and active
but whose grade lies outside `[1,5]` is rejected with InvalidRequest
(status 400); the operation returns no successor store, so no review row is
inserted and no rating is mutated. -/
theorem C5_create_review_bad_grade_rejected
    (rc : ReviewCreate) (uid nid now : Nat) (db : DB)
    (hp : ((db.products.filter
        (fun p => p.id == rc.product_id && p.is_active)).head?).isSome = true)
    (hg : ¬ (1 ≤ rc.grade ∧ rc.grade ≤ 5)) :
    create_review rc uid nid now db = .error .badRequest ∧
    ApiError.badRequest.statusCode = 400 := by
  refine ⟨?_, rfl⟩
  obtain ⟨product, hps⟩ := Option.isSome_iff_exists.mp hp
  unfold create_review
  simp only [hps]
  rw [if_pos hg]

/-- Witness store for C5: one active product with id 1. -/
def dbC5 : DB :=
  { products := [{ id := 1, seller_id := 5, category_id := 2,
                   name := "chair", price := 10, rating := 0,
                   is_active := true }],
    reviews := [],
    categories := [{ id := 2, is_active := true }] }

theorem C5_witness :
    create_review { product_id := 1, comment := "awful", grade := 6 }
        7 1 0 dbC5 = .error .badRequest ∧
    ApiError.badRequest.statusCode = 400 :=
  C5_create_review_bad_grade_rejected
    { product_id := 1, comment := "awful", grade := 6 } 7 1 0 dbC5
    (by decide) (by decide)

/-- C6: a creation request referencing a product id held by no product, or
only by inactive products, is rejected with NotFound (status 404); the
operation returns no successor store, so no review row is inserted and no
rating is mutated. -/
theorem C6_create_review_product_missing_rejected
    (rc : ReviewCreate) (uid nid now : Nat) (db : DB)
    (hp : ∀ p ∈ db.products, p.id = rc.product_id → p.is_active = false) :
    create_review rc uid nid now db = .error .notFound ∧
    ApiError.notFound.statusCode = 404 :=
  ⟨create_review_no_active_product rc uid nid now db hp, rfl⟩

theorem C6_witness :
    create_review { product_id := 999, comment := "ok", grade := 3 }
        7 1 0 { products := [], reviews := [], categories := [] }
      = .error .notFound ∧
    ApiError.notFound.statusCode = 404 :=
  C6_create_review_product_missing_rejected
    { product_id := 999, comment := "ok", grade := 3 } 7 1 0
    { products := [], reviews := [], categories := [] } (by decide)

/-- C7: a successful product soft-delete flips `is_active` to false on the
rows carrying the target id and leaves every other field of those rows —
`rating` included — and every other product, review and category row
exactly as before. -/
theorem C7_delete_product_only_flips_active
    (pid uid : Nat) (db db' : DB) (p : Product)
    (h : delete_product pid uid db = .ok (db', p)) :
    db'.products = db.products.map (fun q =>
        if q.id == pid then { q with is_active := false } else q) ∧
    db'.reviews = db.reviews ∧
    db'.categories = db.categories := by
  unfold delete_product at h
  split at h
  · exact absurd h (by simp)
  · split at h
    · exact absurd h (by simp)
    · simp only [Except.ok.injEq, Prod.mk.injEq] at h
      obtain ⟨hdb, -⟩ := h
      subst hdb
      exact ⟨rfl, rfl, rfl⟩

/-- Witness product and store for C7. -/
def prodC7 : Product :=
  { id := 1, seller_id := 5, category_id := 2, name := "chair",
    price := 10, rating := 3, is_active := true }

def dbC7 : DB :=
  { products := [prodC7], reviews := [],
    categories := [{ id := 2, is_active := true }] }

theorem C7_witness :
    ({ dbC7 with
       products := [{ prodC7 with is_active := false }] } : DB).products
      = dbC7.products.map (fun q =>
          if q.id == 1 then { q with is_active := false } else q) ∧
    ({ dbC7 with
       products := [{ prodC7 with is_active := false }] } : DB).reviews
      = dbC7.reviews ∧
    ({ dbC7 with
       products := [{ prodC7 with is_active := false }] } : DB).categories
      = dbC7.categories :=
  C7_delete_product_only_flips_active 1 5 dbC7
    { dbC7 with products := [{ prodC7 with is_active := false }] }
    { prodC7 with is_active := false } rfl

/-- C8: an update request by an authenticated seller who is not the owning
seller of an existing active product is rejected with Forbidden (status
403); the operation returns no successor store, so no field of the product
is mutated. -/
theorem C8_update_product_wrong_seller_forbidden
    (pid : Nat) (pc : ProductCreate) (uid : Nat) (db : DB) (q : Product)
    (hq : (db.products.filter
        (fun p => p.id == pid && p.is_active)).head? = some q)
    (hneq : q.seller_id ≠ uid) :
    update_product pid pc uid db = .error .forbidden ∧
    ApiError.forbidden.statusCode = 403 := by
  refine ⟨?_, rfl⟩
  unfold update_product
  simp only [hq]
  rw [if_pos hneq]

theorem C8_witness :
    update_product 1 { name := "stool", price := 12, category_id := 2 }
        6 dbC7 = .error .forbidden ∧
    ApiError.forbidden.statusCode = 403 :=
  C8_update_product_wrong_seller_forbidden 1
    { name := "stool", price := 12, category_id := 2 } 6 dbC7 prodC7
    (by decide) (by decide)

/-- C9: in `create_review` the product fetch precedes the grade check, so a
request whose referenced product is missing or inactive and whose grade is
also out of range fails with NotFound, not InvalidRequest. -/
theorem C9_product_check_precedes_grade_check
    (rc : ReviewCreate) (uid nid now : Nat) (db : DB)
    (hp : ∀ p ∈ db.products, p.id = rc.product_id → p.is_active = false)
    (hg : ¬ (1 ≤ rc.grade ∧ rc.grade ≤ 5)) :
    create_review rc uid nid now db = .error .notFound ∧
    create_review rc uid nid now db ≠ .error .badRequest := by
  have h404 := create_review_no_active_product rc uid nid now db hp
  rw [h404]
  exact ⟨rfl, by simp⟩

theorem C9_witness :
    create_review { product_id := 999, comment := "bad", grade := 0 }
        7 1 0 { products := [], reviews := [], categories := [] }
      = .error .notFound ∧
    create_review { product_id := 999, comment := "bad", grade := 0 }
        7 1 0 { products := [], reviews := [], categories := [] }
      ≠ .error .badRequest :=
  C9_product_check_precedes_grade_check
    { product_id := 999, comment := "bad", grade := 0 } 7 1 0
    { products := [], reviews := [], categories := [] }
    (by decide) (by decide)

/-- C10: review soft-deletion never checks the referenced product's active
flag: when an active review points at a product all of whose rows are
inactive, `delete_review` still succeeds and the recomputation still
overwrites that inactive product's `rating` with the mean grade of its
remaining active reviews, leaving the product inactive. -/
theorem C10_delete_review_recomputes_inactive_product
    (rid : Nat) (db : DB) (rv : Review)
    (hr : (db.reviews.filter
        (fun r => r.id == rid && r.is_active)).head? = some rv)
    (hinactive : ∀ p ∈ db.products, p.id = rv.product_id →
        p.is_active = false) :
    ∃ db', delete_review rid db = .ok (db', "Review deleted!") ∧
      ∀ p ∈ db'.products, p.id = rv.product_id →
        p.is_active = false ∧
        p.rating = specMean db'.reviews rv.product_id := by
  refine ⟨update_product_rating rv.product_id
      { db with reviews := db.reviews.map (fun r =>
          if r.id == rid then { r with is_active := false } else r) },
    ?_, ?_⟩
  · unfold delete_review
    simp only [hr]
  · intro p hp hip
    obtain ⟨hrat, q, hq, hqid, hact⟩ :=
      rating_after_update_product_rating hp hip
    refine ⟨?_, hrat⟩
    rw [hact]
    exact hinactive q hq (by rw [hqid, hip])

/-- Witness store for C10: an inactive product with two active reviews;
deleting the grade-3 review drives the inactive product's rating to 5. -/
def dbC10 : DB :=
  { products := [{ id := 1, seller_id := 5, category_id := 2,
                   name := "chair", price := 10, rating := 4,
                   is_active := false }],
    reviews := [{ id := 1, user_id := 7, product_id := 1, comment := "meh",
                  comment_date := 0, grade := 3, is_active := true },
                { id := 2, user_id := 8, product_id := 1, comment := "wow",
                  comment_date := 1, grade := 5, is_active := true }],
    categories := [{ id := 2, is_active := true }] }

def rvC10 : Review :=
  { id := 1, user_id := 7, product_id := 1, comment := "meh",
    comment_date := 0, grade := 3, is_active := true }

theorem C10_witness :
    ∃ db', delete_review 1 dbC10 = .ok (db', "Review deleted!") ∧
      ∀ p ∈ db'.products, p.id = rvC10.product_id →
        p.is_active = false ∧
        p.rating = specMean db'.reviews rvC10.product_id :=
  C10_delete_review_recomputes_inactive_product 1 dbC10 rvC10
    (by decide) (by decide)

/-- Witness store for C1: one product, no reviews. -/
def dbC1 : DB :=
  { products := [{ id := 1, seller_id := 5, category_id := 2,
                   name := "desk", price := 20, rating := 7,
                   is_active := true }],
    reviews := [], categories := [] }

theorem C1_witness :
    (update_product_rating 1 dbC1).products
      = dbC1.products.map (fun p =>
          if p.id == 1 then { p with rating := specMean dbC1.reviews 1 }
          else p) ∧
    specMean dbC1.reviews 1 = 0 :=
  ⟨(C1_rating_recompute_writes_mean 1 dbC1).1,
   (C1_rating_recompute_writes_mean 1 dbC1).2 (by decide)⟩

/-- Witness review row produced by the C2 create scenario. -/
def rvC2 : Review :=
  { id := 1, user_id := 7, product_id := 1, comment := "nice",
    comment_date := 0, grade := 4, is_active := true }

theorem C2_witness :
    (update_product_rating 1 { dbC5 with reviews := dbC5.reviews ++ [rvC2] }
        = update_product_rating 1
            { dbC5 with reviews := dbC5.reviews ++ [rvC2] } ∧
      ∀ p ∈ (update_product_rating 1
          { dbC5 with reviews := dbC5.reviews ++ [rvC2] }).products,
        p.id = 1 →
        p.rating = specMean (update_product_rating 1
            { dbC5 with reviews := dbC5.reviews ++ [rvC2] }).reviews 1) ∧
    (∃ rv, (dbC10.reviews.filter
          (fun r => r.id == 1 && r.is_active)).head? = some rv ∧
      update_product_rating rvC10.product_id
          { dbC10 with reviews := dbC10.reviews.map (fun r =>
              if r.id == 1 then { r with is_active := false } else r) }
        = update_product_rating rv.product_id
            { dbC10 with reviews := dbC10.reviews.map (fun r =>
                if r.id == 1 then { r with is_active := false } else r) } ∧
      ∀ p ∈ (update_product_rating rvC10.product_id
          { dbC10 with reviews := dbC10.reviews.map (fun r =>
              if r.id == 1 then { r with is_active := false }
              else r) }).products,
        p.id = rv.product_id →
        p.rating = specMean (update_product_rating rvC10.product_id
            { dbC10 with reviews := dbC10.reviews.map (fun r =>
                if r.id == 1 then { r with is_active := false }
                else r) }).reviews rv.product_id) :=
  ⟨C2_rating_invariant_after_create_and_delete.1
      { product_id := 1, comment := "nice", grade := 4 } 7 1 0 dbC5
      (update_product_rating 1
        { dbC5 with reviews := dbC5.reviews ++ [rvC2] }) rvC2 rfl,
   C2_rating_invariant_after_create_and_delete.2 1 dbC10
      (update_product_rating rvC10.product_id
        { dbC10 with reviews := dbC10.reviews.map (fun r =>
            if r.id == 1 then { r with is_active := false } else r) })
      "Review deleted!" rfl⟩
